import Mathlib

/-!
Verification of the configuration-resolution subsystem of
`kv_distributed_leader_election` (`src/kvdistlead/config.py`).

The embedding models:
  * the process environment snapshot as a function `String → Option String`
    (Python's `os.getenv` returns `None` for absent variables);
  * Python's exception-based error signalling as `Except ConfigError`,
    where the error kinds carry exactly the data the raised messages
    interpolate (the setting name, and for numeric errors the raw string);
  * Python's `int(raw)` and `float(raw)` base-10 string grammars over
    ASCII: optional surrounding whitespace, an optional sign, digit groups
    that may contain single underscores between digits, and for floats an
    optional fraction, an optional exponent, and the case-insensitive
    tokens `inf` / `infinity` / `nan`.  Non-ASCII digits and Unicode
    whitespace are outside the model.  Float values are represented
    exactly (as rationals, plus infinity/nan markers); IEEE-754 rounding
    is not modelled — no claim here depends on the rounded value.
-/

deriving instance DecidableEq for Except

namespace KVDistLead

/-- An environment snapshot: absent variables map to `none`. -/
abbrev Env := String → Option String

/-- Python's `str.lower()` (ASCII model), as a character-by-character
map so that it evaluates by kernel reduction. -/
def pyLower (s : String) : String := ⟨s.data.map Char.toLower⟩

/-- The ASCII whitespace characters recognised by Python's `str.strip`,
`int` and `float` (the Unicode ones are outside the model). -/
def isPySpace (c : Char) : Bool :=
  c = ' ' || c = '\t' || c = '\n' || c = '\r' || c = '\x0b' || c = '\x0c'

/-- Python's `str.strip()` on a character list (ASCII whitespace model). -/
def pyStrip (l : List Char) : List Char :=
  ((l.dropWhile isPySpace).reverse.dropWhile isPySpace).reverse

/-- Numeric value of an ASCII digit. -/
def dval (c : Char) : Nat := c.toNat - 48

/-- Consume a run of digits, allowing a single underscore between two
digits (Python PEP 515).  `acc` is the value so far, `n` the number of
digits consumed.  Returns the value, the digit count and the rest of the
input; a dangling underscore is left unconsumed (the caller then fails on
it). -/
def duRun : List Char → Nat → Nat → Nat × Nat × List Char
  | '_' :: c :: rest, acc, n =>
      if c.isDigit then duRun rest (acc * 10 + dval c) (n + 1)
      else (acc, n, '_' :: c :: rest)
  | c :: rest, acc, n =>
      if c.isDigit then duRun rest (acc * 10 + dval c) (n + 1)
      else (acc, n, c :: rest)
  | [], acc, n => (acc, n, [])

/-- A digit group: at least one leading digit, then a digit/underscore
run.  Fails when the input does not start with a digit. -/
def duGroup (l : List Char) : Option (Nat × Nat × List Char) :=
  match l with
  | c :: rest => if c.isDigit then some (duRun rest (dval c) 1) else none
  | [] => none

/-- The body of an integer literal after the optional sign: a digit group
consuming the whole input. -/
def intBody (l : List Char) : Option Nat :=
  match duGroup l with
  | some (v, _, []) => some v
  | _ => none

/-- Python's `int(s)` in base 10 (ASCII model): strip whitespace, optional
sign, digits with optional underscores between them; `none` on anything
else (so `int("")`, `int("x")`, `int("1_")` all fail). -/
def pyParseInt (s : String) : Option Int :=
  match pyStrip s.toList with
  | '+' :: rest => (intBody rest).map (fun v => (v : Int))
  | '-' :: rest => (intBody rest).map (fun v => -(v : Int))
  | l => (intBody l).map (fun v => (v : Int))

/-- The value of a Python float literal, represented exactly: a rational
for finite literals (IEEE rounding not modelled), or an infinity/nan
marker. -/
inductive PyFloat where
  | finite (q : ℚ)
  | inf (neg : Bool)
  | nan
deriving DecidableEq, Repr

/-- Mantissa of a float literal: `digits`, `digits.`, `digits.digits` or
`.digits`.  Returns the combined digit value, the number of fractional
digits, and the rest of the input. -/
def mantissa (l : List Char) : Option (Nat × Nat × List Char) :=
  match duGroup l with
  | some (iv, _, rest) =>
      match rest with
      | '.' :: r2 =>
          match duGroup r2 with
          | some (fv, fn, r3) => some (iv * 10 ^ fn + fv, fn, r3)
          | none => some (iv, 0, r2)
      | _ => some (iv, 0, rest)
  | none =>
      match l with
      | '.' :: r2 =>
          match duGroup r2 with
          | some (fv, fn, r3) => some (fv, fn, r3)
          | none => none
      | _ => none

/-- Exponent part of a float literal: empty, or `e`/`E`, an optional sign
and a digit group consuming the rest of the input. -/
def expPart (l : List Char) : Option Int :=
  match l with
  | [] => some 0
  | e :: rest =>
      if e = 'e' || e = 'E' then
        match rest with
        | '+' :: r2 =>
            match duGroup r2 with
            | some (v, _, []) => some (v : Int)
            | _ => none
        | '-' :: r2 =>
            match duGroup r2 with
            | some (v, _, []) => some (-(v : Int))
            | _ => none
        | r2 =>
            match duGroup r2 with
            | some (v, _, []) => some (v : Int)
            | _ => none
      else none

/-- Python's `float(s)` (ASCII model): strip whitespace, optional sign,
then either the case-insensitive tokens `inf`/`infinity`/`nan` or a
decimal mantissa with optional exponent; `none` on anything else. -/
def pyParseFloat (s : String) : Option PyFloat :=
  match pyStrip s.toList with
  | l0 =>
    let sl : Bool × List Char :=
      match l0 with
      | '+' :: r => (false, r)
      | '-' :: r => (true, r)
      | r => (false, r)
    let low := sl.2.map Char.toLower
    if low = "inf".toList || low = "infinity".toList then some (.inf sl.1)
    else if low = "nan".toList then some .nan
    else
      match mantissa sl.2 with
      | some (m, fn, rest) =>
          match expPart rest with
          | some e =>
              let q : ℚ := (m : ℚ) / (10 : ℚ) ^ (fn : ℕ) * (10 : ℚ) ^ (e : ℤ)
              some (.finite (if sl.1 then -q else q))
          | none => none
      | none => none

/-- The error kinds of §7, carrying exactly what the raised messages
interpolate. -/
inductive ConfigError where
  | missingRequired (name : String)
  | invalidInteger (name : String) (raw : String)
  | invalidFloat (name : String) (raw : String)
deriving DecidableEq, Repr

/-- The truthy token set of `str_to_bool`. -/
def truthyTokens : List String := ["1", "true", "yes", "y", "t"]

/-- `str_to_bool` from `config.py`: `default` on absent input, otherwise
membership of the lowercased value in the truthy token set. -/
def str_to_bool (value : Option String) (d : Bool) : Bool :=
  match value with
  | none => d
  | some v => truthyTokens.contains (pyLower v)

/-- `get_int` from `config.py`: default when absent, `int(raw)` when
present, `ValueError` (modelled as `invalidInteger name raw`) on parse
failure. -/
def get_int (env : Env) (name : String) (d : Int) : Except ConfigError Int :=
  match env name with
  | none => .ok d
  | some raw =>
      match pyParseInt raw with
      | some n => .ok n
      | none => .error (.invalidInteger name raw)

/-- `get_float` from `config.py`: default when absent, `float(raw)` when
present, `ValueError` (modelled as `invalidFloat name raw`) on parse
failure. -/
def get_float (env : Env) (name : String) (d : PyFloat) : Except ConfigError PyFloat :=
  match env name with
  | none => .ok d
  | some raw =>
      match pyParseFloat raw with
      | some v => .ok v
      | none => .error (.invalidFloat name raw)

/-- `get_required` from `config.py`: `RuntimeError` (modelled as
`missingRequired name`) when absent or blank after `strip()`, otherwise
the raw value unmodified. -/
def get_required (env : Env) (name : String) : Except ConfigError String :=
  match env name with
  | none => .error (.missingRequired name)
  | some value =>
      if pyStrip value.data = [] then .error (.missingRequired name)
      else .ok value

/-- The resolved configuration record, with the twelve schema fields of
`get_config` (dict keys become fields; optional settings are `Option`). -/
structure Config where
  INSTANCE_ID : Option String
  LOCK_KEY : String
  LOCK_TTL_MS : Int
  LOCK_RENEW_EVERY_MS : Int
  STANDBY_SLEEP_MS : Int
  REDIS_HOST : String
  REDIS_PORT : Int
  REDIS_DB : Int
  REDIS_PASSWORD : Option String
  REDIS_SOCKET_CONNECT_TIMEOUT : PyFloat
  REDIS_SOCKET_TIMEOUT : PyFloat
  REDIS_RETRY_ON_TIMEOUT : Bool
deriving DecidableEq, Repr

/-- `get_config` from `config.py`.  The nested matches mirror Python's
exception propagation: the first raising call aborts assembly.  The
fallible calls appear in the source's evaluation order (`LOCK_KEY`,
`LOCK_TTL_MS`, `LOCK_RENEW_EVERY_MS`, `STANDBY_SLEEP_MS`, `REDIS_PORT`,
`REDIS_DB`, then the two socket timeouts inside the dict literal).  The
record fields follow the `Config` declaration order, i.e. the dict's key
order. -/
def get_config (env : Env) : Except ConfigError Config :=
  match get_required env "LOCK_KEY" with
  | .error e => .error e
  | .ok lock_key =>
  match get_int env "LOCK_TTL_MS" 15000 with
  | .error e => .error e
  | .ok lock_ttl_ms =>
  match get_int env "LOCK_RENEW_EVERY_MS" 5000 with
  | .error e => .error e
  | .ok lock_renew_every_ms =>
  match get_int env "STANDBY_SLEEP_MS" 2000 with
  | .error e => .error e
  | .ok standby_sleep_ms =>
  match get_int env "REDIS_PORT" 6379 with
  | .error e => .error e
  | .ok redis_port =>
  match get_int env "REDIS_DB" 0 with
  | .error e => .error e
  | .ok redis_db =>
  match get_float env "REDIS_SOCKET_CONNECT_TIMEOUT" (.finite 1) with
  | .error e => .error e
  | .ok redis_socket_connect_timeout =>
  match get_float env "REDIS_SOCKET_TIMEOUT" (.finite 1) with
  | .error e => .error e
  | .ok redis_socket_timeout =>
      .ok ⟨env "INSTANCE_ID",
           lock_key,
           lock_ttl_ms,
           lock_renew_every_ms,
           standby_sleep_ms,
           (env "REDIS_HOST").getD "redis",
           redis_port,
           redis_db,
           env "REDIS_PASSWORD",
           redis_socket_connect_timeout,
           redis_socket_timeout,
           str_to_bool (some ((env "REDIS_RETRY_ON_TIMEOUT").getD "true")) true⟩

/-- One identifier per schema field, for reasoning about the order in
which the assembler resolves them. -/
inductive FieldId where
  | instanceId
  | lockKey
  | lockTtlMs
  | lockRenewEveryMs
  | standbySleepMs
  | redisHost
  | redisPort
  | redisDb
  | redisPassword
  | socketConnectTimeout
  | socketTimeout
  | retryOnTimeout
deriving DecidableEq, Repr

/-- A resolved field value, one constructor per semantic type. -/
inductive FieldVal where
  | str (v : String)
  | optStr (v : Option String)
  | int (v : Int)
  | flt (v : PyFloat)
  | bool (v : Bool)
deriving DecidableEq, Repr

/-- Resolution of a single schema field against the snapshot, exactly as
`get_config` resolves it; each field depends only on `env`, not on the
other fields. -/
def resolveField (env : Env) : FieldId → Except ConfigError FieldVal
  | .instanceId => .ok (.optStr (env "INSTANCE_ID"))
  | .lockKey => (get_required env "LOCK_KEY").map .str
  | .lockTtlMs => (get_int env "LOCK_TTL_MS" 15000).map .int
  | .lockRenewEveryMs => (get_int env "LOCK_RENEW_EVERY_MS" 5000).map .int
  | .standbySleepMs => (get_int env "STANDBY_SLEEP_MS" 2000).map .int
  | .redisHost => .ok (.str ((env "REDIS_HOST").getD "redis"))
  | .redisPort => (get_int env "REDIS_PORT" 6379).map .int
  | .redisDb => (get_int env "REDIS_DB" 0).map .int
  | .redisPassword => .ok (.optStr (env "REDIS_PASSWORD"))
  | .socketConnectTimeout => (get_float env "REDIS_SOCKET_CONNECT_TIMEOUT" (.finite 1)).map .flt
  | .socketTimeout => (get_float env "REDIS_SOCKET_TIMEOUT" (.finite 1)).map .flt
  | .retryOnTimeout =>
      .ok (.bool (str_to_bool (some ((env "REDIS_RETRY_ON_TIMEOUT").getD "true")) true))

/-- The error of a field resolution, if any. -/
def errOf : Except ConfigError FieldVal → Option ConfigError
  | .error e => some e
  | .ok _ => none

/-- The first error hit when resolving the fields in the given order. -/
def firstErr (env : Env) : List FieldId → Option ConfigError
  | [] => none
  | f :: rest =>
      match errOf (resolveField env f) with
      | some e => some e
      | none => firstErr env rest

/-- Extract the value of a successful resolution (junk on error; only
used once every field is known to resolve). -/
def okOr {α : Type} (x : Except ConfigError α) (d : α) : α :=
  match x with
  | .ok a => a
  | .error _ => d

/-- The record assembled from the individual field resolutions. -/
def buildConfig (env : Env) : Config :=
  ⟨env "INSTANCE_ID",
   okOr (get_required env "LOCK_KEY") "",
   okOr (get_int env "LOCK_TTL_MS" 15000) 0,
   okOr (get_int env "LOCK_RENEW_EVERY_MS" 5000) 0,
   okOr (get_int env "STANDBY_SLEEP_MS" 2000) 0,
   (env "REDIS_HOST").getD "redis",
   okOr (get_int env "REDIS_PORT" 6379) 0,
   okOr (get_int env "REDIS_DB" 0) 0,
   env "REDIS_PASSWORD",
   okOr (get_float env "REDIS_SOCKET_CONNECT_TIMEOUT" (.finite 1)) (.finite 1),
   okOr (get_float env "REDIS_SOCKET_TIMEOUT" (.finite 1)) (.finite 1),
   str_to_bool (some ((env "REDIS_RETRY_ON_TIMEOUT").getD "true")) true⟩

/-- The schema fields in the source's evaluation order. -/
def schemaOrder : List FieldId :=
  [.lockKey, .lockTtlMs, .lockRenewEveryMs, .standbySleepMs,
   .redisHost, .redisPort, .redisDb, .redisPassword, .instanceId,
   .socketConnectTimeout, .socketTimeout, .retryOnTimeout]

/-- The schema fields with the first two resolutions swapped. -/
def swappedOrder : List FieldId :=
  [.lockTtlMs, .lockKey, .lockRenewEveryMs, .standbySleepMs,
   .redisHost, .redisPort, .redisDb, .redisPassword, .instanceId,
   .socketConnectTimeout, .socketTimeout, .retryOnTimeout]

/-- Assembly resolving the fields in an arbitrary order: the first error
in that order aborts, otherwise the record is built from the per-field
values. -/
def get_config_order (order : List FieldId) (env : Env) : Except ConfigError Config :=
  match firstErr env order with
  | some e => .error e
  | none => .ok (buildConfig env)

theorem firstErr_none_iff (env : Env) (o : List FieldId) :
    firstErr env o = none ↔ ∀ f ∈ o, errOf (resolveField env f) = none := by
  induction o with
  | nil => simp [firstErr]
  | cons f rest ih => cases h : errOf (resolveField env f) <;> simp [firstErr, h, ih]

theorem get_config_eq_order (env : Env) :
    get_config env = get_config_order schemaOrder env := by
  cases hk : get_required env "LOCK_KEY" <;>
  cases h1 : get_int env "LOCK_TTL_MS" 15000 <;>
  cases h2 : get_int env "LOCK_RENEW_EVERY_MS" 5000 <;>
  cases h3 : get_int env "STANDBY_SLEEP_MS" 2000 <;>
  cases h4 : get_int env "REDIS_PORT" 6379 <;>
  cases h5 : get_int env "REDIS_DB" 0 <;>
  cases h6 : get_float env "REDIS_SOCKET_CONNECT_TIMEOUT" (.finite 1) <;>
  cases h7 : get_float env "REDIS_SOCKET_TIMEOUT" (.finite 1) <;>
  simp [get_config, get_config_order, schemaOrder, firstErr, resolveField, errOf,
        Except.map, buildConfig, okOr, hk, h1, h2, h3, h4, h5, h6, h7]

theorem get_config_ok_build (env : Env) (c : Config) (h : get_config env = .ok c) :
    c = buildConfig env := by
  rw [get_config_eq_order] at h
  unfold get_config_order at h
  cases he : firstErr env schemaOrder <;> rw [he] at h <;> simp_all

/-! Concrete environment snapshots used by the witnesses and examples. -/

/-- A snapshot where `LOCK_KEY` is whitespace-only and all else absent. -/
def env1 : Env := fun n => if n = "LOCK_KEY" then some "   " else none

/-- A snapshot with a valid `LOCK_KEY` and an integer `REDIS_PORT`. -/
def env6 : Env := fun n =>
  if n = "LOCK_KEY" then some "svc-a"
  else if n = "REDIS_PORT" then some "6380" else none

/-- The record `get_config` resolves from `env6`. -/
def cfg6 : Config :=
  ⟨none, "svc-a", 15000, 5000, 2000, "redis", 6380, 0, none, .finite 1, .finite 1, true⟩

/-- A snapshot where `LOCK_KEY` is absent and `LOCK_TTL_MS` is malformed:
two distinct fields fail to resolve. -/
def env7 : Env := fun n => if n = "LOCK_TTL_MS" then some "x" else none

/-- A snapshot whose `LOCK_KEY` has surrounding whitespace. -/
def env4 : Env := fun n => if n = "LOCK_KEY" then some "  svc-a  " else none

/-- A snapshot with a valid `LOCK_KEY` and an unparsable socket timeout. -/
def envAbc : Env := fun n =>
  if n = "LOCK_KEY" then some "svc-a"
  else if n = "REDIS_SOCKET_TIMEOUT" then some "abc" else none

/-- A snapshot where `REDIS_HOST` is present but empty. -/
def env9 : Env := fun n =>
  if n = "LOCK_KEY" then some "k"
  else if n = "REDIS_HOST" then some "" else none

/-- The record `get_config` resolves from `env9`. -/
def cfg9 : Config :=
  ⟨none, "k", 15000, 5000, 2000, "", 6379, 0, none, .finite 1, .finite 1, true⟩

/-- A snapshot where `LOCK_TTL_MS` is present but empty. -/
def env10 : Env := fun n => if n = "LOCK_TTL_MS" then some "" else none

/-- Claim C1: whenever `LOCK_KEY` is absent, or present but empty or
whitespace-only after trimming, `get_config` fails with `MissingRequired`
naming `LOCK_KEY`, and — the result being an `error`, not an `ok` — no
configuration record, partial or complete, is produced. -/
theorem get_config_missing_lock_key (env : Env)
    (h : env "LOCK_KEY" = none ∨
      ∃ s, env "LOCK_KEY" = some s ∧ pyStrip s.data = []) :
    get_config env = .error (.missingRequired "LOCK_KEY") := by
  have hreq : get_required env "LOCK_KEY" = .error (.missingRequired "LOCK_KEY") := by
    rcases h with h | ⟨s, hs, hb⟩
    · simp [get_required, h]
    · simp [get_required, hs, hb]
  simp [get_config, hreq]

/-- Witness for C1: the snapshot with `LOCK_KEY = "   "`. -/
theorem get_config_missing_lock_key_witness :
    get_config env1 = .error (.missingRequired "LOCK_KEY") :=
  get_config_missing_lock_key env1 (Or.inr ⟨"   ", by decide, by decide⟩)

/-- Claim C2: for every setting name and default, `get_int` returns the
default when the setting is absent, the parsed value when the raw string
is a valid base-10 integer, and an `InvalidInteger` error carrying the
name and the literal raw string otherwise; as `env name` and
`pyParseInt raw` each have exactly two shapes, these three cases are
exhaustive. -/
theorem get_int_contract (env : Env) (name : String) (d : Int) :
    (env name = none → get_int env name d = .ok d) ∧
    (∀ raw n, env name = some raw → pyParseInt raw = some n →
      get_int env name d = .ok n) ∧
    (∀ raw, env name = some raw → pyParseInt raw = none →
      get_int env name d = .error (.invalidInteger name raw)) := by
  refine ⟨fun h => ?_, fun raw n h hp => ?_, fun raw h hp => ?_⟩ <;> simp [get_int, *]

/-- Witness for C2: `REDIS_PORT = "6380"` parses to `6380`. -/
theorem get_int_contract_witness : get_int env6 "REDIS_PORT" 6379 = .ok 6380 :=
  (get_int_contract env6 "REDIS_PORT" 6379).2.1 "6380" 6380 (by decide) (by decide)

/-- Claim C3: `str_to_bool` returns the default on absent input, `true`
exactly when the lowercased value is one of the truthy tokens, and
`false` on every other string; being a Lean function into `Bool`, it is
total and has no failure path. -/
theorem str_to_bool_contract (d : Bool) :
    str_to_bool none d = d ∧
    (∀ s : String, pyLower s ∈ truthyTokens → str_to_bool (some s) d = true) ∧
    (∀ s : String, pyLower s ∉ truthyTokens → str_to_bool (some s) d = false) := by
  refine ⟨rfl, fun s hs => ?_, fun s hs => ?_⟩ <;> simp [str_to_bool, List.contains, hs]

/-- Witness for C3: `"TRUE"` lowercases into the token set and coerces to
`true` even with default `false`. -/
theorem str_to_bool_contract_witness : str_to_bool (some "TRUE") false = true :=
  (str_to_bool_contract false).2.1 "TRUE" (by decide)

/-- Claim C4: `get_required` fails with `MissingRequired` naming the
setting when it is absent or blank after trimming, and otherwise returns
the raw string exactly as found, untrimmed. -/
theorem get_required_contract (env : Env) (name : String) :
    (env name = none → get_required env name = .error (.missingRequired name)) ∧
    (∀ v, env name = some v → pyStrip v.data = [] →
      get_required env name = .error (.missingRequired name)) ∧
    (∀ v, env name = some v → pyStrip v.data ≠ [] →
      get_required env name = .ok v) := by
  refine ⟨fun h => ?_, fun v h hb => ?_, fun v h hb => ?_⟩ <;> simp [get_required, *]

/-- Witness for C4: a `LOCK_KEY` with surrounding whitespace is returned
verbatim, spaces included. -/
theorem get_required_contract_witness : get_required env4 "LOCK_KEY" = .ok "  svc-a  " :=
  (get_required_contract env4 "LOCK_KEY").2.2 "  svc-a  " (by decide) (by decide)

/-- Claim C5: `get_float` mirrors `get_int` with float parsing — default
when absent, parsed value when parsable, `InvalidFloat` carrying the name
and the raw string otherwise; in particular with
`REDIS_SOCKET_TIMEOUT = "abc"` (and a valid `LOCK_KEY`) resolution fails
with `InvalidFloat` referencing `REDIS_SOCKET_TIMEOUT` and `"abc"`. -/
theorem get_float_contract (env : Env) (name : String) (d : PyFloat) :
    ((env name = none → get_float env name d = .ok d) ∧
     (∀ raw v, env name = some raw → pyParseFloat raw = some v →
       get_float env name d = .ok v) ∧
     (∀ raw, env name = some raw → pyParseFloat raw = none →
       get_float env name d = .error (.invalidFloat name raw))) ∧
    get_config envAbc = .error (.invalidFloat "REDIS_SOCKET_TIMEOUT" "abc") := by
  refine ⟨⟨fun h => ?_, fun raw v h hp => ?_, fun raw h hp => ?_⟩, by decide⟩ <;>
    simp [get_float, *]

/-- Witness for C5: the unparsable socket timeout string `"abc"`. -/
theorem get_float_contract_witness :
    get_float envAbc "REDIS_SOCKET_TIMEOUT" (.finite 1) =
      .error (.invalidFloat "REDIS_SOCKET_TIMEOUT" "abc") :=
  (get_float_contract envAbc "REDIS_SOCKET_TIMEOUT" (.finite 1)).1.2.2 "abc"
    (by decide) (by decide)

/-- Claim C6: on the snapshot with exactly `LOCK_KEY = "svc-a"` and
`REDIS_PORT = "6380"`, assembly succeeds and the record has
`LOCK_KEY = "svc-a"`, `REDIS_PORT = 6380`, `REDIS_HOST = "redis"`,
`LOCK_TTL_MS = 15000` and `REDIS_RETRY_ON_TIMEOUT = true`. -/
theorem get_config_example : get_config env6 = .ok cfg6 ∧
    cfg6.LOCK_KEY = "svc-a" ∧ cfg6.REDIS_PORT = 6380 ∧ cfg6.REDIS_HOST = "redis" ∧
    cfg6.LOCK_TTL_MS = 15000 ∧ cfg6.REDIS_RETRY_ON_TIMEOUT = true := by
  decide

/-- Counterexample to C7 as stated: on the snapshot where `LOCK_KEY` is
absent and `LOCK_TTL_MS = "x"`, resolving in the source's order reports
`MissingRequired LOCK_KEY`, while the reordering that resolves
`LOCK_TTL_MS` first — a permutation of the same schema — reports
`InvalidInteger LOCK_TTL_MS "x"`: the error identity depends on the
order, and `get_config` itself agrees with the source's order. -/
theorem get_config_order_error_depends_on_order :
    swappedOrder.Perm schemaOrder ∧
    get_config env7 = .error (.missingRequired "LOCK_KEY") ∧
    get_config_order schemaOrder env7 = .error (.missingRequired "LOCK_KEY") ∧
    get_config_order swappedOrder env7 = .error (.invalidInteger "LOCK_TTL_MS" "x") ∧
    get_config_order schemaOrder env7 ≠ get_config_order swappedOrder env7 := by
  refine ⟨by decide, by decide, by decide, by decide, by decide⟩

/-- Claim C7 (amended): resolving the schema's fields in any order — any
permutation of the schema — yields the same resolved record on success,
and success versus failure itself is order-independent; only the identity
of the reported error may depend on the order when several fields are
invalid. -/
theorem get_config_order_ok_independent (env : Env) (o₁ o₂ : List FieldId)
    (h₁ : o₁.Perm schemaOrder) (h₂ : o₂.Perm schemaOrder) (c : Config) :
    get_config_order o₁ env = .ok c ↔ get_config_order o₂ env = .ok c := by
  have hmem : ∀ f : FieldId, f ∈ o₁ ↔ f ∈ o₂ := fun f =>
    h₁.mem_iff.trans h₂.mem_iff.symm
  have hfe : firstErr env o₁ = none ↔ firstErr env o₂ = none := by
    rw [firstErr_none_iff, firstErr_none_iff]
    exact ⟨fun H f hf => H f ((hmem f).mpr hf), fun H f hf => H f ((hmem f).mp hf)⟩
  unfold get_config_order
  cases ha : firstErr env o₁ <;> cases hb : firstErr env o₂ <;> simp_all

/-- Witness for the amended C7: on `env6`, the source's order and the
swapped order agree on success with the record `cfg6`. -/
theorem get_config_order_ok_independent_witness :
    get_config_order swappedOrder env6 = .ok cfg6 ↔
      get_config_order schemaOrder env6 = .ok cfg6 :=
  get_config_order_ok_independent env6 swappedOrder schemaOrder (by decide)
    (List.Perm.refl _) cfg6

/-- Claim C8: resolution is a pure function of the snapshot, so resolving
twice against the same unchanged snapshot yields records that are
field-for-field equal. -/
theorem get_config_deterministic (env : Env) (c₁ c₂ : Config)
    (h₁ : get_config env = .ok c₁) (h₂ : get_config env = .ok c₂) : c₁ = c₂ := by
  rw [h₁] at h₂
  injection h₂ with hh

/-- Witness for C8: two resolutions of `env6` both give `cfg6`. -/
theorem get_config_deterministic_witness : cfg6 = cfg6 :=
  get_config_deterministic env6 cfg6 cfg6 (by decide) (by decide)

/-- Claim C9: any present value of the optional string settings —
including the empty or a whitespace-only string — is stored verbatim
with no blankness check; `REDIS_HOST` defaults to `"redis"` and
`INSTANCE_ID`/`REDIS_PASSWORD` to `none` only when strictly absent, and
the absent optional fields still appear in the record as `none`. -/
theorem get_config_optional_strings (env : Env) (c : Config)
    (h : get_config env = .ok c) :
    (∀ v, env "REDIS_HOST" = some v → c.REDIS_HOST = v) ∧
    (env "REDIS_HOST" = none → c.REDIS_HOST = "redis") ∧
    (∀ v, env "INSTANCE_ID" = some v → c.INSTANCE_ID = some v) ∧
    (env "INSTANCE_ID" = none → c.INSTANCE_ID = none) ∧
    (∀ v, env "REDIS_PASSWORD" = some v → c.REDIS_PASSWORD = some v) ∧
    (env "REDIS_PASSWORD" = none → c.REDIS_PASSWORD = none) := by
  have hb := get_config_ok_build env c h
  subst hb
  refine ⟨fun v hv => ?_, fun hv => ?_, fun v hv => ?_, fun hv => ?_,
    fun v hv => ?_, fun hv => ?_⟩ <;> simp [buildConfig, hv]

/-- Witness for C9: on `env9` (whose `REDIS_HOST` is the empty string)
the record keeps the empty string verbatim, and the absent `INSTANCE_ID`
appears as `none`. -/
theorem get_config_optional_strings_witness :
    cfg9.REDIS_HOST = "" ∧ cfg9.INSTANCE_ID = none :=
  ⟨(get_config_optional_strings env9 cfg9 (by decide)).1 "" (by decide),
   (get_config_optional_strings env9 cfg9 (by decide)).2.2.2.1 (by decide)⟩

/-- Claim C10: an integer or float setting present with the empty string
is treated as a malformed present value, not as absent: the coercers fail
with `InvalidInteger` / `InvalidFloat` instead of substituting the
default. -/
theorem empty_string_is_invalid (env : Env) (name : String) (di : Int) (df : PyFloat)
    (h : env name = some "") :
    get_int env name di = .error (.invalidInteger name "") ∧
    get_float env name df = .error (.invalidFloat name "") := by
  have hi : pyParseInt "" = none := by decide
  have hf : pyParseFloat "" = none := by decide
  constructor <;> simp [get_int, get_float, h, hi, hf]

/-- Witness for C10: `LOCK_TTL_MS = ""` fails both coercers rather than
falling back to a default. -/
theorem empty_string_is_invalid_witness :
    get_int env10 "LOCK_TTL_MS" 15000 = .error (.invalidInteger "LOCK_TTL_MS" "") ∧
    get_float env10 "LOCK_TTL_MS" (.finite 1) = .error (.invalidFloat "LOCK_TTL_MS" "") :=
  empty_string_is_invalid env10 "LOCK_TTL_MS" 15000 (.finite 1) (by decide)

end KVDistLead
